import Mathlib

/-!
Shallow embedding of the Flyan repository (src/flyan/misc.py and
src/flyan/ryanair.py): the parameter model (pydantic validators and
`to_api_params`), the JSON fare parser, and the retrying HTTP client
facade, together with theorems settling the specification claims.

Python values appearing in JSON bodies are modelled by `JVal`; Python
exceptions relevant to the code's control flow by `Exn`; `datetime`
values by `PyDateTime` (calendar date plus time of day, compared
lexicographically exactly as Python compares naive datetimes).
Standard-library behaviour that the repository merely calls
(`datetime.fromisoformat`) is a parameter of the parsing functions, and
the network is an oracle giving the outcome of each HTTP attempt.
-/

namespace Flyan

/-- A decoded JSON value / Python object: `None`, bool, number, string,
list, or dict (an ordered association list, keys unique as in Python). -/
inductive JVal : Type where
  | null : JVal
  | bool : Bool → JVal
  | num : ℚ → JVal
  | str : String → JVal
  | arr : List JVal → JVal
  | obj : List (String × JVal) → JVal

/-- The Python exception classes distinguished by the repository's
control flow.  `httpStatusError` and `transportError` are the two
subfamilies of `httpx.HTTPError`; `valueError` covers `ValueError`
including `json.JSONDecodeError` and `datetime.fromisoformat` failures;
`validationError` is pydantic's `ValidationError`; `typeError` is
`TypeError` from subscripting/iterating a value of the wrong shape. -/
inductive Exn : Type where
  | keyError : String → Exn
  | typeError : Exn
  | valueError : String → Exn
  | httpStatusError : Nat → Exn
  | transportError : Exn
  | validationError : String → Exn
deriving DecidableEq, Repr

/-- `except httpx.HTTPError` catches exactly these. -/
def Exn.isHTTPError : Exn → Bool
  | .httpStatusError _ => true
  | .transportError => true
  | _ => false

/-- `except KeyError` catches exactly these. -/
def Exn.isKeyError : Exn → Bool
  | .keyError _ => true
  | _ => false

/-- Python `d[k]` on a JSON value: `KeyError` when the key is absent
from a dict, `TypeError` when the value is not a dict. -/
def JVal.sub (v : JVal) (k : String) : Except Exn JVal :=
  match v with
  | .obj fs =>
      match fs.lookup k with
      | some x => Except.ok x
      | none => Except.error (Exn.keyError k)
  | _ => Except.error Exn.typeError

/-- Python `d.get(k, dflt)` on a dict (`TypeError` on a non-dict,
matching `AttributeError`-class misuse collapsed to one constructor). -/
def JVal.getD (v : JVal) (k : String) (dflt : JVal) : Except Exn JVal :=
  match v with
  | .obj fs =>
      match fs.lookup k with
      | some x => Except.ok x
      | none => Except.ok dflt
  | _ => Except.error Exn.typeError

/-- Key lookup on a dict value, `none` for a missing key or a non-dict. -/
def JVal.lookupKey : JVal → String → Option JVal
  | .obj fs, k => fs.lookup k
  | _, _ => none

/-- Python truthiness of a JSON value. -/
def JVal.truthy : JVal → Bool
  | .null => false
  | .bool b => b
  | .num q => decide (q ≠ 0)
  | .str s => decide (s ≠ "")
  | .arr xs => !xs.isEmpty
  | .obj fs => !fs.isEmpty

/-- Python `x or y` (on JSON values): `x` when truthy, else `y`. -/
def pyOr (x y : JVal) : JVal := if x.truthy then x else y

/-- A Python `datetime.date`: year, month, day. -/
structure PyDate where
  year : Nat
  month : Nat
  day : Nat
deriving DecidableEq, Repr

/-- A Python time of day: hour, minute, second, microsecond. -/
structure PyTime where
  hour : Nat
  minute : Nat
  second : Nat
  microsecond : Nat
deriving DecidableEq, Repr

/-- A naive Python `datetime`: a calendar date plus a time of day. -/
structure PyDateTime where
  date : PyDate
  time : PyTime
deriving DecidableEq, Repr

/-- The (year, month, day, hour, minute, second, microsecond) tuple;
Python compares naive datetimes lexicographically on exactly this. -/
def PyDateTime.fields (d : PyDateTime) : List Nat :=
  [d.date.year, d.date.month, d.date.day,
   d.time.hour, d.time.minute, d.time.second, d.time.microsecond]

/-- Python `a < b` on naive datetimes: lexicographic field comparison. -/
def PyDateTime.lt (a b : PyDateTime) : Bool :=
  decide (List.Lex (· < ·) a.fields b.fields)

/-- Zero-pad the decimal representation of `n` to `w` characters, as
Python's fixed-width date formatting does. -/
def natPad (w n : Nat) : String :=
  let s := toString n
  String.mk (List.replicate (w - s.length) '0') ++ s

/-- Python `date.isoformat()`: `YYYY-MM-DD`. -/
def PyDate.isoformat (d : PyDate) : String :=
  natPad 4 d.year ++ "-" ++ natPad 2 d.month ++ "-" ++ natPad 2 d.day

/-- A query-parameter value: `to_api_params` maps to `str | int`. -/
inductive ApiVal : Type where
  | s : String → ApiVal
  | i : Int → ApiVal
deriving DecidableEq, Repr

/-- The fields of `FlightSearchParams` (misc.py).  A value of this type
is a candidate field assignment; pydantic validation at construction is
`FlightSearchParams.validate` below. -/
structure FlightSearchParams where
  from_airport : String
  from_date : PyDateTime
  to_date : PyDateTime
  destination_country : Option String := none
  max_price : Option Int := none
  to_airport : Option String := none
  departure_time_from : Option String := some "00:00"
  departure_time_to : Option String := some "23:59"
deriving DecidableEq, Repr

/-- Python `str.upper()` character by character (station keys and user
codes are ASCII, where this agrees with Python). -/
def pyUpper (s : String) : String :=
  String.mk (s.data.map Char.toUpper)

/-- `validate_airport` (misc.py lines 83-89): reject codes that are not
keys of the loaded station table, then canonicalize to uppercase.  The
station table is abstracted by its key list `stations`. -/
def validate_airport (stations : List String) (v : String) : Except Exn String :=
  if v ∈ stations then Except.ok (pyUpper v)
  else Except.error (Exn.validationError ("Airport code must be a 3-letter IATA code"))

/-- `validate_dates` (misc.py lines 91-96): reject datetimes strictly
before `datetime.now()`, passed in here as `now`. -/
def validate_dates (now v : PyDateTime) : Except Exn PyDateTime :=
  if v.lt now then Except.error (Exn.validationError ("Date from or to cannot be in the past"))
  else Except.ok v

/-- `validate_price` (misc.py lines 98-106): `None` passes; present
values must be strictly positive. -/
def validate_price : Option Int → Except Exn (Option Int)
  | none => Except.ok none
  | some v =>
      if v ≤ 0 then Except.error (Exn.validationError ("Price can't be negative"))
      else Except.ok (some v)

/-- Constructing a `FlightSearchParams`: pydantic runs the three field
validators and stores their return values.  Only `from_airport`,
`from_date`, `to_date` and `max_price` have validators. -/
def FlightSearchParams.validate (stations : List String) (now : PyDateTime)
    (p : FlightSearchParams) : Except Exn FlightSearchParams := do
  let fa ← validate_airport stations p.from_airport
  let fd ← validate_dates now p.from_date
  let td ← validate_dates now p.to_date
  let mp ← validate_price p.max_price
  Except.ok { p with from_airport := fa, from_date := fd, to_date := td, max_price := mp }

/-- Truthiness of an `Optional[str]` field (`if self.x:`). -/
def optStrTruthy : Option String → Bool
  | none => false
  | some s => decide (s ≠ "")

/-- Python `self.x or dflt` for an `Optional[str]` field. -/
def optStrOr (x : Option String) (dflt : String) : String :=
  match x with
  | none => dflt
  | some s => if s = "" then dflt else s

/-- Python `if field: params[key] = field` for an `Optional[str]`
field: the key/value pair is inserted exactly when the field is truthy
(present and non-empty). -/
def optParam (key : String) (o : Option String) : List (String × ApiVal) :=
  match o with
  | some s => if s ≠ "" then [(key, ApiVal.s s)] else []
  | none => []

/-- Python `if self.max_price: params["priceValueTo"] = self.max_price`
for the `Optional[int]` field: inserted exactly when truthy (present
and non-zero). -/
def optPriceParam (o : Option Int) : List (String × ApiVal) :=
  match o with
  | some n => if n ≠ 0 then [("priceValueTo", ApiVal.i n)] else []
  | none => []

/-- Truthiness of the `Optional[int]` field (`if self.max_price:`). -/
def optIntTruthy : Option Int → Bool
  | none => false
  | some n => decide (n ≠ 0)

/-- `FlightSearchParams.to_api_params` (misc.py lines 108-127): the
five mandatory keys in insertion order, then each optional key appended
when its field is truthy. -/
def FlightSearchParams.to_api_params (p : FlightSearchParams) : List (String × ApiVal) :=
  [("departureAirportIataCode", ApiVal.s p.from_airport),
   ("outboundDepartureDateFrom", ApiVal.s p.from_date.date.isoformat),
   ("outboundDepartureDateTo", ApiVal.s p.to_date.date.isoformat),
   ("outboundDepartureTimeFrom", ApiVal.s (optStrOr p.departure_time_from ("00:00"))),
   ("outboundDepartureTimeTo", ApiVal.s (optStrOr p.departure_time_to ("23:59")))]
  ++ optParam ("arrivalCountryCode") p.destination_country
  ++ optPriceParam p.max_price
  ++ optParam ("arrivalAirportIataCode") p.to_airport

/-- The fields of `ReturnFlightSearchParams` (misc.py lines 130-142),
extending the one-way fields. -/
structure ReturnFlightSearchParams extends FlightSearchParams where
  return_date_from : PyDateTime
  return_date_to : PyDateTime
  inbound_departure_time_from : Option String := some "00:00"
  inbound_departure_time_to : Option String := some "23:59"
deriving DecidableEq, Repr

/-- `validate_return_dates` (misc.py lines 138-142): the validator body
is just `return v` — it performs no check at all. -/
def validate_return_dates (v : PyDateTime) : Except Exn PyDateTime :=
  Except.ok v

/-- Constructing a `ReturnFlightSearchParams`: the inherited validators
run on the inherited fields and `validate_return_dates` runs on the two
return-date fields. -/
def ReturnFlightSearchParams.validate (stations : List String) (now : PyDateTime)
    (p : ReturnFlightSearchParams) : Except Exn ReturnFlightSearchParams := do
  let fa ← validate_airport stations p.from_airport
  let fd ← validate_dates now p.from_date
  let td ← validate_dates now p.to_date
  let mp ← validate_price p.max_price
  let rdf ← validate_return_dates p.return_date_from
  let rdt ← validate_return_dates p.return_date_to
  Except.ok { p with from_airport := fa, from_date := fd, to_date := td,
                     max_price := mp, return_date_from := rdf, return_date_to := rdt }

/-- `ReturnFlightSearchParams.to_api_params` (misc.py lines 144-161):
the base one-way mapping, then `params.update(additional_params)` where
the two inbound date keys are mandatory and the inbound time keys are
added when truthy.  All four keys are fresh, so `update` appends. -/
def ReturnFlightSearchParams.to_api_params (p : ReturnFlightSearchParams) :
    List (String × ApiVal) :=
  p.toFlightSearchParams.to_api_params
  ++ [("inboundDepartureDateFrom", ApiVal.s p.return_date_from.date.isoformat),
      ("inboundDepartureDateTo", ApiVal.s p.return_date_to.date.isoformat)]
  ++ optParam ("inboundDepartureTimeFrom") p.inbound_departure_time_from
  ++ optParam ("inboundDepartureTimeTo") p.inbound_departure_time_to

/-- A value of Python type `str | float`. -/
inductive StrOrFloat : Type where
  | s : String → StrOrFloat
  | f : ℚ → StrOrFloat
deriving DecidableEq, Repr

/-- The `Airport` record (misc.py lines 41-48). -/
structure Airport where
  country_name : String
  iata_code : String
  name : String
  seo_name : String
  city_name : String
  city_code : String
  city_country_code : String
deriving DecidableEq, Repr

/-- The `Flight` record (misc.py lines 51-60); `previous_price` has
Python type `Optional[str | float]`. -/
structure Flight where
  departure_airport : Airport
  arrival_airport : Airport
  departure_date : PyDateTime
  arrival_date : PyDateTime
  price : ℚ
  currency : String
  flight_key : String
  flight_number : String
  previous_price : Option StrOrFloat
deriving DecidableEq, Repr

/-- The `ReturnFlight` record (misc.py lines 63-68); here
`previous_price` is a mandatory `str | float`. -/
structure ReturnFlight where
  outbound : Flight
  inbound : Flight
  summary_price : ℚ
  summary_currency : String
  previous_price : StrOrFloat
deriving DecidableEq, Repr

/-- The behaviour of `datetime.fromisoformat` on strings is standard
library code the repository merely calls; the parsers take it as a
parameter (a malformed string is a `ValueError`, i.e. `Except.error`). -/
abbrev FromIso := String → Except Exn PyDateTime

/-- `datetime.fromisoformat(v)`: `TypeError` unless `v` is a string,
else whatever the library parser gives. -/
def fromisoformat (fromIso : FromIso) (v : JVal) : Except Exn PyDateTime :=
  match v with
  | .str s => fromIso s
  | _ => Except.error Exn.typeError

/-- Pydantic validation of a `str` field. -/
def JVal.asStr : JVal → Except Exn String
  | .str s => Except.ok s
  | _ => Except.error (Exn.validationError ("str expected"))

/-- Pydantic validation of a `float` field. -/
def JVal.asFloat : JVal → Except Exn ℚ
  | .num q => Except.ok q
  | _ => Except.error (Exn.validationError ("float expected"))

/-- Pydantic validation of a `str | float` field. -/
def JVal.asStrFloat : JVal → Except Exn StrOrFloat
  | .str s => Except.ok (StrOrFloat.s s)
  | .num q => Except.ok (StrOrFloat.f q)
  | _ => Except.error (Exn.validationError ("str or float expected"))

/-- Pydantic validation of an `Optional[str | float]` field. -/
def JVal.asOptStrFloat : JVal → Except Exn (Option StrOrFloat)
  | .null => Except.ok none
  | .str s => Except.ok (some (StrOrFloat.s s))
  | .num q => Except.ok (some (StrOrFloat.f q))
  | _ => Except.error (Exn.validationError ("str or float or None expected"))

/-- `RyanAir.__parse_airport` (ryanair.py lines 96-105): fixed
field-path extraction in keyword-argument order, then the pydantic
validation of the `Airport` fields. -/
def parse_airport (airport : JVal) : Except Exn Airport := do
  let cn ← airport.sub ("countryName")
  let ic ← airport.sub ("iataCode")
  let nm ← airport.sub ("name")
  let sn ← airport.sub ("seoName")
  let city ← airport.sub ("city")
  let cyn ← city.sub ("name")
  let cyc ← city.sub ("code")
  let ccc ← city.sub ("countryCode")
  let country_name ← cn.asStr
  let iata_code ← ic.asStr
  let name ← nm.asStr
  let seo_name ← sn.asStr
  let city_name ← cyn.asStr
  let city_code ← cyc.asStr
  let city_country_code ← ccc.asStr
  Except.ok { country_name, iata_code, name, seo_name, city_name, city_code,
              city_country_code }

/-- `RyanAir.__parse_fare` (ryanair.py lines 107-121): select the leg
`fare[k]`, parse the two ISO timestamps, the two airports, the nested
price value/currency, key, number, and `fare[k].get("previousPrice",
None)`; then the pydantic validation of the `Flight` fields. -/
def parse_fare (fromIso : FromIso) (fare : JVal) (k : String) : Except Exn Flight := do
  let leg ← fare.sub k
  let depRaw ← leg.sub ("departureDate")
  let departure_date ← fromisoformat fromIso depRaw
  let arrRaw ← leg.sub ("arrivalDate")
  let arrival_date ← fromisoformat fromIso arrRaw
  let depAirportRaw ← leg.sub ("departureAirport")
  let departure_airport ← parse_airport depAirportRaw
  let arrAirportRaw ← leg.sub ("arrivalAirport")
  let arrival_airport ← parse_airport arrAirportRaw
  let priceObj ← leg.sub ("price")
  let priceRaw ← priceObj.sub ("value")
  let currencyRaw ← priceObj.sub ("currencyCode")
  let keyRaw ← leg.sub ("flightKey")
  let numberRaw ← leg.sub ("flightNumber")
  let prevRaw ← leg.getD ("previousPrice") JVal.null
  let price ← priceRaw.asFloat
  let currency ← currencyRaw.asStr
  let flight_key ← keyRaw.asStr
  let flight_number ← numberRaw.asStr
  let previous_price ← prevRaw.asOptStrFloat
  Except.ok { departure_airport, arrival_airport, departure_date, arrival_date,
              price, currency, flight_key, flight_number, previous_price }

/-- `RyanAir.__parse_return_fare` (ryanair.py lines 123-133): both legs
via `parse_fare`, the summary price/currency, and
`fare.get("previousPrice") or 0`. -/
def parse_return_fare (fromIso : FromIso) (fare : JVal) : Except Exn ReturnFlight := do
  let outbound ← parse_fare fromIso fare ("outbound")
  let inbound ← parse_fare fromIso fare ("inbound")
  let summary ← fare.sub ("summary")
  let summaryPrice ← summary.sub ("price")
  let spRaw ← summaryPrice.sub ("value")
  let scRaw ← summaryPrice.sub ("currencyCode")
  let prevGot ← fare.getD ("previousPrice") JVal.null
  let prevRaw := pyOr prevGot (JVal.num 0)
  let summary_price ← spRaw.asFloat
  let summary_currency ← scRaw.asStr
  let previous_price ← prevRaw.asStrFloat
  Except.ok { outbound, inbound, summary_price, summary_currency, previous_price }

/-- An HTTP response as the fare code observes it: a status code and
the JSON-decode outcome of the body (`Except.error m` when the body is
not valid JSON, in which case `r.json()` raises `json.JSONDecodeError`,
a `ValueError`). -/
structure HttpResponse where
  status : Nat
  body : Except String JVal

/-- `httpx.Response.is_success`: status in 2xx. -/
def HttpResponse.is_success (r : HttpResponse) : Bool :=
  decide (200 ≤ r.status ∧ r.status < 300)

/-- `httpx.Response.json()`: the decoded body, or a `ValueError`. -/
def HttpResponse.json (r : HttpResponse) : Except Exn JVal :=
  match r.body with
  | .ok j => Except.ok j
  | .error m => Except.error (Exn.valueError m)

/-- The outcome of one network attempt (`self.client.get(...)`): either
an exception raised during the call, or a response. -/
inductive GetOutcome : Type where
  | exn : Exn → GetOutcome
  | resp : HttpResponse → GetOutcome

/-- One attempt of the body of `RyanAir.__get` (ryanair.py lines 83-94):
perform the GET, then `response.raise_for_status()`, which raises
`httpx.HTTPStatusError` exactly when the status is not 2xx. -/
def attemptGet : GetOutcome → Except Exn HttpResponse
  | .exn e => Except.error e
  | .resp r => if r.is_success then Except.ok r else Except.error (Exn.httpStatusError r.status)

/-- The tenacity retry loop around `RyanAir.__get` (ryanair.py lines
77-82): `net i` is the outcome of the `i`-th attempt (0-based), the
second argument counts attempts already made, the third the attempts
still allowed (`stop_after_attempt(5)`).  `retry_if_exception_type(
Exception)` retries on any exception, and `reraise=True` re-raises the
last exception once attempts are exhausted. -/
def retryFrom (net : Nat → GetOutcome) (i : Nat) : Nat → Except Exn HttpResponse
  | 0 => Except.error Exn.transportError
  | 1 => attemptGet (net i)
  | n + 2 =>
      match attemptGet (net i) with
      | .ok r => Except.ok r
      | .error _ => retryFrom net (i + 1) (n + 1)

/-- `RyanAir.__get`: the retry loop with a budget of 5 attempts. -/
def ryanGet (net : Nat → GetOutcome) : Except Exn HttpResponse :=
  retryFrom net 0 5

/-- How many attempts the retry loop actually performs. -/
def attemptsFrom (net : Nat → GetOutcome) (i : Nat) : Nat → Nat
  | 0 => 0
  | 1 => 1
  | n + 2 =>
      match attemptGet (net i) with
      | .ok _ => 1
      | .error _ => 1 + attemptsFrom net (i + 1) (n + 1)

/-- Attempts performed by one `RyanAir.__get` call. -/
def ryanGetAttempts (net : Nat → GetOutcome) : Nat :=
  attemptsFrom net 0 5

/-- Tenacity `wait_exponential()` with its defaults (multiplier 1, base
2): the sleep, in seconds, inserted after the n-th failed attempt. -/
def wait_exponential (attempt : Nat) : Nat :=
  2 ^ (attempt - 1)

/-- Python iteration over a JSON value (`for f in fares`): a list
yields its elements, a dict its keys, a string its characters; other
values raise `TypeError`. -/
def JVal.pyIter : JVal → Except Exn (List JVal)
  | .arr xs => Except.ok xs
  | .obj fs => Except.ok (fs.map (fun kv => JVal.str kv.1))
  | .str s => Except.ok (s.toList.map (fun c => JVal.str (String.mk [c])))
  | _ => Except.error Exn.typeError

/-- The `try:` block of `RyanAir.get_oneways` (ryanair.py lines
142-150): the retried GET, the defensive `is_success` check, `r.json()
["fares"]`, and the parse of every entry (with the default leg selector
`"outbound"`). -/
def oneways_body (fromIso : FromIso) (oc : Nat → GetOutcome) : Except Exn (List Flight) := do
  let r ← ryanGet oc
  if !r.is_success then
    Except.ok []
  else do
    let j ← r.json
    let faresVal ← j.sub ("fares")
    let fares ← faresVal.pyIter
    let flights ← fares.mapM (fun f => parse_fare fromIso f ("outbound"))
    Except.ok flights

/-- `RyanAir.get_oneways` (ryanair.py lines 135-158): the `try:` block
guarded by `except httpx.HTTPError: return []` and `except KeyError:
return []`; any other exception propagates to the caller.  `net` maps
the query-parameter mapping to the per-attempt network outcomes. -/
def get_oneways (fromIso : FromIso) (net : List (String × ApiVal) → Nat → GetOutcome)
    (params : FlightSearchParams) : Except Exn (List Flight) :=
  match oneways_body fromIso (net params.to_api_params) with
  | .ok v => Except.ok v
  | .error e =>
      if e.isHTTPError then Except.ok []
      else if e.isKeyError then Except.ok []
      else Except.error e

/-- `RyanAir.__init__` (ryanair.py lines 51-72): the warm-up
`self.__get("https://www.ryanair.com")` (whose exception, if the retry
budget is exhausted, propagates out of the constructor), then currency
resolution against the currency table. -/
def ryanair_init (net : Nat → GetOutcome) (currencies : List String)
    (currency : String) : Except Exn String := do
  let _ ← ryanGet net
  Except.ok (if currency ∈ currencies then currency else "EUR")

/-! Concrete sample data used to witness the theorems below. -/

/-- A station table for examples; loaded station keys are uppercase. -/
def sampleStations : List String := ["DUB", "STN"]

/-- A fixed validation instant standing for `datetime.now()`. -/
def sampleNow : PyDateTime := ⟨⟨2026, 1, 1⟩, ⟨0, 0, 0, 0⟩⟩

def sampleFuture : PyDateTime := ⟨⟨2026, 6, 1⟩, ⟨10, 30, 0, 0⟩⟩

def samplePast : PyDateTime := ⟨⟨2000, 1, 1⟩, ⟨0, 0, 0, 0⟩⟩

def sampleParams : FlightSearchParams :=
  { from_airport := "DUB", from_date := sampleFuture, to_date := sampleFuture }

/-- Like `sampleParams` but with the time-of-day components moved. -/
def sampleParamsLate : FlightSearchParams :=
  { from_airport := "DUB", from_date := ⟨⟨2026, 6, 1⟩, ⟨23, 59, 59, 999⟩⟩,
    to_date := ⟨⟨2026, 6, 1⟩, ⟨0, 0, 0, 1⟩⟩ }

def sampleParamsPriced : FlightSearchParams :=
  { from_airport := "DUB", from_date := sampleFuture, to_date := sampleFuture,
    destination_country := some "IT", max_price := some 150 }

def sampleParamsNonpos : FlightSearchParams :=
  { from_airport := "DUB", from_date := sampleFuture, to_date := sampleFuture,
    max_price := some 0 }

/-- Return-search parameters whose return dates lie in the past. -/
def sampleRetParams : ReturnFlightSearchParams :=
  { from_airport := "DUB", from_date := sampleFuture, to_date := sampleFuture,
    return_date_from := samplePast, return_date_to := samplePast }

def sampleRetParamsOk : ReturnFlightSearchParams :=
  { from_airport := "DUB", from_date := sampleFuture, to_date := sampleFuture,
    return_date_from := sampleFuture, return_date_to := sampleFuture }

def sampleDT : PyDateTime := ⟨⟨2025, 6, 1⟩, ⟨10, 0, 0, 0⟩⟩

/-- A fixed stand-in for the standard library's ISO-8601 parser. -/
def sampleIso : FromIso := fun _ => Except.ok sampleDT

def sampleAirportJson : JVal := JVal.obj
  [("countryName", JVal.str ("Ireland")),
   ("iataCode", JVal.str ("DUB")),
   ("name", JVal.str ("Dublin")),
   ("seoName", JVal.str ("dublin")),
   ("city", JVal.obj
     [("name", JVal.str ("Dublin")),
      ("code", JVal.str ("DUBLIN")),
      ("countryCode", JVal.str ("ie"))])]

def sampleAirport : Airport :=
  ⟨"Ireland", "DUB", "Dublin", "dublin", "Dublin", "DUBLIN", "ie"⟩

def samplePriceJson : JVal :=
  JVal.obj [("value", JVal.num (4999 / 100)), ("currencyCode", JVal.str ("EUR"))]

def sampleLegFields : List (String × JVal) :=
  [("departureAirport", sampleAirportJson),
   ("arrivalAirport", sampleAirportJson),
   ("departureDate", JVal.str ("2025-06-01T10:00:00")),
   ("arrivalDate", JVal.str ("2025-06-01T12:00:00")),
   ("price", samplePriceJson),
   ("flightKey", JVal.str ("FR123KEY")),
   ("flightNumber", JVal.str ("FR123"))]

def sampleFare : JVal := JVal.obj [("outbound", JVal.obj sampleLegFields)]

def sampleFlight : Flight :=
  ⟨sampleAirport, sampleAirport, sampleDT, sampleDT, 4999 / 100, "EUR",
   "FR123KEY", "FR123", none⟩

def sampleRetFareFields : List (String × JVal) :=
  [("outbound", JVal.obj sampleLegFields),
   ("inbound", JVal.obj sampleLegFields),
   ("summary", JVal.obj
     [("price", JVal.obj
       [("value", JVal.num (8999 / 100)), ("currencyCode", JVal.str ("EUR"))])])]

def sampleRetFare : JVal := JVal.obj sampleRetFareFields

def sampleRetFlight : ReturnFlight :=
  ⟨sampleFlight, sampleFlight, 8999 / 100, "EUR", StrOrFloat.f 0⟩

/-- A fare entry whose `price` object lacks the required `value` key. -/
def sampleBadLeg : JVal := JVal.obj
  [("departureAirport", sampleAirportJson),
   ("arrivalAirport", sampleAirportJson),
   ("departureDate", JVal.str ("2025-06-01T10:00:00")),
   ("arrivalDate", JVal.str ("2025-06-01T12:00:00")),
   ("price", JVal.obj [("currencyCode", JVal.str ("EUR"))]),
   ("flightKey", JVal.str ("FR123KEY")),
   ("flightNumber", JVal.str ("FR123"))]

def sampleBadFare : JVal := JVal.obj [("outbound", sampleBadLeg)]

def sampleRespBadFare : HttpResponse :=
  ⟨200, Except.ok (JVal.obj [("fares", JVal.arr [sampleBadFare])])⟩

/-- A network in which every attempt yields a 200 response whose fares
array contains an entry missing `price.value`. -/
def sampleNetBadFare : List (String × ApiVal) → Nat → GetOutcome :=
  fun _ _ => GetOutcome.resp sampleRespBadFare

/-- A network in which every attempt yields a 200 response whose body
is not valid JSON. -/
def sampleNetBadJson : List (String × ApiVal) → Nat → GetOutcome :=
  fun _ _ => GetOutcome.resp ⟨200, Except.error ("Expecting value")⟩

/-- A network in which every attempt raises a transport error. -/
def sampleNetDown : List (String × ApiVal) → Nat → GetOutcome :=
  fun _ _ => GetOutcome.exn Exn.transportError

/-! Generic helper lemmas about the `Except` monad and the embedding. -/

theorem ebind_ok {ε α β : Type} (a : α) (f : α → Except ε β) :
    (Bind.bind (Except.ok a) f) = f a := rfl

theorem ebind_error {ε α β : Type} (e : ε) (f : α → Except ε β) :
    (Bind.bind (Except.error e : Except ε α) f) = Except.error e := rfl

theorem eisOk_ok {ε α : Type} (a : α) : (Except.ok a : Except ε α).isOk = true := rfl

theorem eisOk_error {ε α : Type} (e : ε) : (Except.error e : Except ε α).isOk = false := rfl

theorem eisOk_false {α : Type} {x : Except Exn α} (h : x.isOk = false) :
    ∃ e, x = Except.error e := by
  cases x with
  | ok a => simp [Except.isOk, Except.toBool] at h
  | error e => exact ⟨e, rfl⟩

theorem sub_obj (fs : List (String × JVal)) (k : String) :
    (JVal.obj fs).sub k =
      match fs.lookup k with
      | some x => Except.ok x
      | none => Except.error (Exn.keyError k) := rfl

theorem getD_obj (fs : List (String × JVal)) (k : String) (d : JVal) :
    (JVal.obj fs).getD k d =
      match fs.lookup k with
      | some x => Except.ok x
      | none => Except.ok d := rfl

theorem lookup_append {β : Type} (l1 l2 : List (String × β)) (k : String) :
    (l1 ++ l2).lookup k =
      match l1.lookup k with
      | some v => some v
      | none => l2.lookup k := by
  induction l1 with
  | nil => rfl
  | cons a l ih =>
      cases a with
      | mk k' v =>
          by_cases h : k == k' <;> simp [List.lookup, h, ih]

/-! Inversion lemmas for the pydantic validators. -/

theorem validate_airport_ok {stations : List String} {v a : String}
    (h : validate_airport stations v = Except.ok a) :
    a = pyUpper v ∧ v ∈ stations := by
  by_cases hm : v ∈ stations
  · refine ⟨?_, hm⟩
    simpa [validate_airport, hm] using h.symm
  · simp [validate_airport, hm] at h

theorem validate_dates_ok {now v v' : PyDateTime}
    (h : validate_dates now v = Except.ok v') :
    v' = v ∧ v.lt now = false := by
  by_cases hl : v.lt now
  · simp [validate_dates, hl] at h
  · refine ⟨?_, by simpa using hl⟩
    simpa [validate_dates, hl] using h.symm

theorem validate_price_ok {mp mp' : Option Int}
    (h : validate_price mp = Except.ok mp') :
    mp' = mp ∧ ∀ n, mp = some n → 0 < n := by
  cases mp with
  | none =>
      refine ⟨?_, by intro n hn; cases hn⟩
      simpa [validate_price] using h.symm
  | some v =>
      by_cases hv : v ≤ 0
      · simp [validate_price, hv] at h
      · refine ⟨?_, ?_⟩
        · simpa [validate_price, hv] using h.symm
        · intro n hn
          cases hn
          omega

/-- Inverting a successful `FlightSearchParams` construction: every
field of the result, and positivity of the stored price. -/
theorem validate_ok_inv {stations : List String} {now : PyDateTime}
    {p q : FlightSearchParams}
    (hv : FlightSearchParams.validate stations now p = Except.ok q) :
    q.from_airport = pyUpper p.from_airport ∧ p.from_airport ∈ stations
    ∧ q.from_date = p.from_date ∧ q.to_date = p.to_date
    ∧ q.destination_country = p.destination_country
    ∧ q.max_price = p.max_price
    ∧ q.to_airport = p.to_airport
    ∧ q.departure_time_from = p.departure_time_from
    ∧ q.departure_time_to = p.departure_time_to
    ∧ (∀ n, q.max_price = some n → 0 < n) := by
  rw [FlightSearchParams.validate] at hv
  cases ha : validate_airport stations p.from_airport with
  | error e => rw [ha, ebind_error] at hv; cases hv
  | ok fa =>
  rw [ha, ebind_ok] at hv
  cases hfd : validate_dates now p.from_date with
  | error e => rw [hfd, ebind_error] at hv; cases hv
  | ok fd =>
  rw [hfd, ebind_ok] at hv
  cases htd : validate_dates now p.to_date with
  | error e => rw [htd, ebind_error] at hv; cases hv
  | ok td =>
  rw [htd, ebind_ok] at hv
  cases hmp : validate_price p.max_price with
  | error e => rw [hmp, ebind_error] at hv; cases hv
  | ok mp =>
  rw [hmp, ebind_ok] at hv
  cases hv
  obtain ⟨ha1, ha2⟩ := validate_airport_ok ha
  obtain ⟨hfd1, _⟩ := validate_dates_ok hfd
  obtain ⟨htd1, _⟩ := validate_dates_ok htd
  obtain ⟨hmp1, hmp2⟩ := validate_price_ok hmp
  subst ha1 hfd1 htd1 hmp1
  exact ⟨rfl, ha2, rfl, rfl, rfl, rfl, rfl, rfl, rfl, hmp2⟩

/-! The specification claims. -/

/-- Claim C5: construction of a `FlightSearchParams` succeeds exactly
when the supplied `from_airport` string is a key of the loaded station
table, the stored code is then the uppercase form of the supplied
string, and any string outside the table is rejected with a validation
error.  The other validated fields are assumed valid. -/
theorem C5_airport_validation (stations : List String) (now : PyDateTime)
    (p : FlightSearchParams)
    (hfd : p.from_date.lt now = false) (htd : p.to_date.lt now = false)
    (hmp : validate_price p.max_price = Except.ok p.max_price) :
    ((FlightSearchParams.validate stations now p).isOk ↔ p.from_airport ∈ stations)
    ∧ (∀ q, FlightSearchParams.validate stations now p = Except.ok q →
        q.from_airport = pyUpper p.from_airport)
    ∧ (p.from_airport ∉ stations →
        FlightSearchParams.validate stations now p =
          Except.error (Exn.validationError ("Airport code must be a 3-letter IATA code"))) := by
  refine ⟨?_, ?_, ?_⟩
  · by_cases h : p.from_airport ∈ stations <;>
      simp [FlightSearchParams.validate, validate_airport, validate_dates, h, hfd, htd,
        hmp, ebind_ok, ebind_error, eisOk_ok, eisOk_error]
  · intro q hq
    exact (validate_ok_inv hq).1
  · intro h
    simp [FlightSearchParams.validate, validate_airport, h, ebind_error]

/-- Witness for C5 at a concrete valid parameter object. -/
theorem C5_airport_validation_witness :
    (FlightSearchParams.validate sampleStations sampleNow sampleParams).isOk ↔
      sampleParams.from_airport ∈ sampleStations :=
  (C5_airport_validation sampleStations sampleNow sampleParams (by decide) (by decide)
    (by rfl)).1

/-- Claim C9: the station-table membership test runs on the supplied
string before uppercasing, so a string absent from the table is
rejected even when its uppercase form is a station key; the whole
construction fails the same way. -/
theorem C9_membership_checked_before_uppercase (stations : List String) (v : String)
    (hnot : v ∉ stations) (_hup : pyUpper v ∈ stations) :
    validate_airport stations v =
      Except.error (Exn.validationError ("Airport code must be a 3-letter IATA code"))
    ∧ (∀ (now : PyDateTime) (p : FlightSearchParams), p.from_airport = v →
        FlightSearchParams.validate stations now p =
          Except.error (Exn.validationError ("Airport code must be a 3-letter IATA code"))) := by
  have hva : validate_airport stations v =
      Except.error (Exn.validationError ("Airport code must be a 3-letter IATA code")) := by
    simp [validate_airport, hnot]
  refine ⟨hva, ?_⟩
  intro now p hp
  rw [FlightSearchParams.validate, hp, hva, ebind_error]

/-- Witness for C9: the lowercase spelling of an uppercase station key
is rejected although its uppercase form is in the table. -/
theorem C9_membership_checked_before_uppercase_witness :
    validate_airport sampleStations ("dub") =
      Except.error (Exn.validationError ("Airport code must be a 3-letter IATA code")) :=
  (C9_membership_checked_before_uppercase sampleStations ("dub") (by decide) (by decide)).1

/-! Key-shape lemmas for the query-parameter mapping. -/

theorem optParam_keys (key : String) (o : Option String) :
    (optParam key o).map Prod.fst = if optStrTruthy o then [key] else [] := by
  cases o with
  | none => rfl
  | some s =>
      by_cases h : s = "" <;> simp [optParam, optStrTruthy, h]

theorem optPriceParam_keys (o : Option Int) :
    (optPriceParam o).map Prod.fst = if optIntTruthy o then ["priceValueTo"] else [] := by
  cases o with
  | none => rfl
  | some n =>
      by_cases h : n = 0 <;> simp [optPriceParam, optIntTruthy, h]

theorem optParam_lookup_other (key k : String) (o : Option String) (h : (k == key) = false) :
    (optParam key o).lookup k = none := by
  cases o with
  | none => rfl
  | some s =>
      by_cases hs : s = "" <;> simp [optParam, hs, List.lookup, h]

theorem optPriceParam_lookup_other (k : String) (o : Option Int)
    (h : (k == "priceValueTo") = false) :
    (optPriceParam o).lookup k = none := by
  cases o with
  | none => rfl
  | some n =>
      by_cases hn : n = 0 <;> simp [optPriceParam, hn, List.lookup, h]

theorem optPriceParam_lookup_self (o : Option Int) :
    (optPriceParam o).lookup ("priceValueTo") =
      match o with
      | some n => if n ≠ 0 then some (ApiVal.i n) else none
      | none => none := by
  cases o with
  | none => rfl
  | some n =>
      by_cases hn : n = 0 <;> simp [optPriceParam, hn, List.lookup]

/-- The keys of the one-way query-parameter mapping, for an arbitrary
field assignment: five mandatory keys, then each optional key exactly
when its field is truthy. -/
theorem to_api_params_keys (p : FlightSearchParams) :
    p.to_api_params.map Prod.fst =
      ["departureAirportIataCode", "outboundDepartureDateFrom", "outboundDepartureDateTo",
       "outboundDepartureTimeFrom", "outboundDepartureTimeTo"]
      ++ (if optStrTruthy p.destination_country then ["arrivalCountryCode"] else [])
      ++ (if optIntTruthy p.max_price then ["priceValueTo"] else [])
      ++ (if optStrTruthy p.to_airport then ["arrivalAirportIataCode"] else []) := by
  simp [FlightSearchParams.to_api_params, List.map_append, optParam_keys, optPriceParam_keys]

/-- Claim C6: a present non-positive `max_price` fails construction
with a validation error; a positive one passes and appears in the
query-parameter mapping under `priceValueTo` with exactly that value;
an absent one leaves `priceValueTo` out of the mapping.  The other
validated fields are assumed valid. -/
theorem C6_price_validation (stations : List String) (now : PyDateTime)
    (p : FlightSearchParams)
    (hA : p.from_airport ∈ stations)
    (hfd : p.from_date.lt now = false) (htd : p.to_date.lt now = false) :
    (∀ n : Int, p.max_price = some n → n ≤ 0 →
        FlightSearchParams.validate stations now p =
          Except.error (Exn.validationError ("Price can't be negative")))
    ∧ (∀ n : Int, p.max_price = some n → 0 < n →
        ∃ q, FlightSearchParams.validate stations now p = Except.ok q ∧
          q.to_api_params.lookup ("priceValueTo") = some (ApiVal.i n))
    ∧ (p.max_price = none →
        ∃ q, FlightSearchParams.validate stations now p = Except.ok q ∧
          q.to_api_params.lookup ("priceValueTo") = none) := by
  refine ⟨?_, ?_, ?_⟩
  · intro n hn hle
    simp [FlightSearchParams.validate, validate_airport, validate_dates, validate_price,
      hA, hfd, htd, hn, hle, ebind_ok, ebind_error]
  · intro n hn hpos
    have hne : ¬ n ≤ 0 := by omega
    refine ⟨{ p with from_airport := pyUpper p.from_airport, max_price := some n }, ?_, ?_⟩
    · simp [FlightSearchParams.validate, validate_airport, validate_dates, validate_price,
        hA, hfd, htd, hn, hne, ebind_ok]
    · have hn0 : n ≠ 0 := by omega
      simp [FlightSearchParams.to_api_params, lookup_append, List.lookup,
        optParam_lookup_other, optPriceParam_lookup_self, hn0]
  · intro hn
    refine ⟨{ p with from_airport := pyUpper p.from_airport, max_price := none }, ?_, ?_⟩
    · simp [FlightSearchParams.validate, validate_airport, validate_dates, validate_price,
        hA, hfd, htd, hn, ebind_ok]
    · simp [FlightSearchParams.to_api_params, lookup_append, List.lookup,
        optParam_lookup_other, optPriceParam_lookup_self]

/-- Witness for C6: a zero `max_price` is rejected at construction. -/
theorem C6_price_validation_witness :
    FlightSearchParams.validate sampleStations sampleNow sampleParamsNonpos =
      Except.error (Exn.validationError ("Price can't be negative")) :=
  (C6_price_validation sampleStations sampleNow sampleParamsNonpos (by decide) (by decide)
    (by decide)).1 0 rfl (by decide)

/-- Claim C4: the one-way query mapping always carries exactly the five
mandatory keys (with the time keys defaulting to full-day bounds when
unset and the dates rendered by `date.isoformat`, i.e. `YYYY-MM-DD`),
plus each optional key exactly when its field is set (not None/empty);
the return variant is the base mapping extended with the two mandatory
inbound date keys and, when set, the two inbound time keys. -/
theorem C4_to_api_params_mapping (stations : List String) (now : PyDateTime)
    (p q : FlightSearchParams) (rp rq : ReturnFlightSearchParams)
    (hv : FlightSearchParams.validate stations now p = Except.ok q)
    (_hrv : ReturnFlightSearchParams.validate stations now rp = Except.ok rq) :
    (q.to_api_params.map Prod.fst =
      ["departureAirportIataCode", "outboundDepartureDateFrom", "outboundDepartureDateTo",
       "outboundDepartureTimeFrom", "outboundDepartureTimeTo"]
      ++ (if optStrTruthy q.destination_country then ["arrivalCountryCode"] else [])
      ++ (if q.max_price.isSome then ["priceValueTo"] else [])
      ++ (if optStrTruthy q.to_airport then ["arrivalAirportIataCode"] else []))
    ∧ q.to_api_params.lookup ("departureAirportIataCode") = some (ApiVal.s q.from_airport)
    ∧ q.to_api_params.lookup ("outboundDepartureDateFrom") =
        some (ApiVal.s q.from_date.date.isoformat)
    ∧ q.to_api_params.lookup ("outboundDepartureDateTo") =
        some (ApiVal.s q.to_date.date.isoformat)
    ∧ q.to_api_params.lookup ("outboundDepartureTimeFrom") =
        some (ApiVal.s (optStrOr q.departure_time_from ("00:00")))
    ∧ q.to_api_params.lookup ("outboundDepartureTimeTo") =
        some (ApiVal.s (optStrOr q.departure_time_to ("23:59")))
    ∧ (q.departure_time_from = none →
        q.to_api_params.lookup ("outboundDepartureTimeFrom") = some (ApiVal.s ("00:00")))
    ∧ (q.departure_time_to = none →
        q.to_api_params.lookup ("outboundDepartureTimeTo") = some (ApiVal.s ("23:59")))
    ∧ rq.to_api_params.map Prod.fst =
        (rq.toFlightSearchParams.to_api_params.map Prod.fst
         ++ ["inboundDepartureDateFrom", "inboundDepartureDateTo"]
         ++ (if optStrTruthy rq.inbound_departure_time_from then
               ["inboundDepartureTimeFrom"] else [])
         ++ (if optStrTruthy rq.inbound_departure_time_to then
               ["inboundDepartureTimeTo"] else []))
    ∧ rq.to_api_params.lookup ("inboundDepartureDateFrom") =
        some (ApiVal.s rq.return_date_from.date.isoformat)
    ∧ rq.to_api_params.lookup ("inboundDepartureDateTo") =
        some (ApiVal.s rq.return_date_to.date.isoformat) := by
  have hpos := (validate_ok_inv hv).2.2.2.2.2.2.2.2.2
  have hint : optIntTruthy q.max_price = q.max_price.isSome := by
    cases hm : q.max_price with
    | none => rfl
    | some n =>
        have := hpos n hm
        simp [optIntTruthy]
        omega
  refine ⟨?_, ?_, ?_, ?_, ?_, ?_, ?_, ?_, ?_, ?_, ?_⟩
  · rw [to_api_params_keys, hint]
  · simp [FlightSearchParams.to_api_params, List.lookup]
  · simp [FlightSearchParams.to_api_params, List.lookup]
  · simp [FlightSearchParams.to_api_params, List.lookup]
  · simp [FlightSearchParams.to_api_params, List.lookup]
  · simp [FlightSearchParams.to_api_params, List.lookup]
  · intro h
    simp [FlightSearchParams.to_api_params, List.lookup, h, optStrOr]
  · intro h
    simp [FlightSearchParams.to_api_params, List.lookup, h, optStrOr]
  · simp [ReturnFlightSearchParams.to_api_params, List.map_append, optParam_keys]
  · simp [ReturnFlightSearchParams.to_api_params, FlightSearchParams.to_api_params,
      lookup_append, List.lookup, optParam_lookup_other, optPriceParam_lookup_other]
  · simp [ReturnFlightSearchParams.to_api_params, FlightSearchParams.to_api_params,
      lookup_append, List.lookup, optParam_lookup_other, optPriceParam_lookup_other]

/-- Witness for C4 at concrete validated one-way and return objects. -/
theorem C4_to_api_params_mapping_witness :
    sampleParamsPriced.to_api_params.lookup ("outboundDepartureDateFrom") =
      some (ApiVal.s sampleParamsPriced.from_date.date.isoformat) :=
  (C4_to_api_params_mapping sampleStations sampleNow sampleParamsPriced sampleParamsPriced
    sampleRetParamsOk sampleRetParamsOk (by rfl) (by rfl)).2.2.1

/-- Claim C10: the query-parameter mapping depends on the departure
datetimes only through their calendar dates; two field assignments that
agree everywhere except in the time-of-day components of `from_date`
and `to_date` produce identical mappings. -/
theorem C10_time_of_day_immaterial (p q : FlightSearchParams)
    (hfd : p.from_date.date = q.from_date.date)
    (htd : p.to_date.date = q.to_date.date)
    (h1 : p.from_airport = q.from_airport)
    (h2 : p.destination_country = q.destination_country)
    (h3 : p.max_price = q.max_price)
    (h4 : p.to_airport = q.to_airport)
    (h5 : p.departure_time_from = q.departure_time_from)
    (h6 : p.departure_time_to = q.departure_time_to) :
    p.to_api_params = q.to_api_params := by
  simp [FlightSearchParams.to_api_params, hfd, htd, h1, h2, h3, h4, h5, h6]

/-- Witness for C10: two concrete objects differing only in the time
components of the departure datetimes map to the same parameters. -/
theorem C10_time_of_day_immaterial_witness :
    sampleParams.to_api_params = sampleParamsLate.to_api_params :=
  C10_time_of_day_immaterial sampleParams sampleParamsLate rfl rfl rfl rfl rfl rfl rfl rfl

/-- Counterexample to claim C2 as stated: a `ReturnFlightSearchParams`
whose `return_date_from` and `return_date_to` lie strictly before the
validation instant is constructed successfully — the return-date
fields are not checked against the current time. -/
theorem C2_past_return_date_accepted :
    (ReturnFlightSearchParams.validate sampleStations sampleNow sampleRetParams).isOk = true
    ∧ PyDateTime.lt sampleRetParams.return_date_from sampleNow = true
    ∧ PyDateTime.lt sampleRetParams.return_date_to sampleNow = true := by
  refine ⟨by decide, by decide, by decide⟩

/-- Claim C2, amended: the not-in-the-past rule is enforced for
`from_date` and `to_date` only — construction succeeds exactly when
neither outbound date is strictly before `now` (other validated fields
being valid) — while `validate_return_dates` accepts every datetime
unchanged, so the return-date fields of `ReturnFlightSearchParams` are
never compared with the current time. -/
theorem C2_date_validation (stations : List String) (now : PyDateTime)
    (p : ReturnFlightSearchParams)
    (hA : p.from_airport ∈ stations)
    (hmp : validate_price p.max_price = Except.ok p.max_price) :
    ((ReturnFlightSearchParams.validate stations now p).isOk ↔
      (PyDateTime.lt p.from_date now = false ∧ PyDateTime.lt p.to_date now = false))
    ∧ (∀ v, validate_return_dates v = Except.ok v)
    ∧ (∀ v, (validate_dates now v).isOk ↔ PyDateTime.lt v now = false)
    ∧ ((FlightSearchParams.validate stations now p.toFlightSearchParams).isOk ↔
      (PyDateTime.lt p.from_date now = false ∧ PyDateTime.lt p.to_date now = false)) := by
  refine ⟨?_, fun v => rfl, ?_, ?_⟩
  · cases hf : PyDateTime.lt p.from_date now <;> cases ht : PyDateTime.lt p.to_date now <;>
      simp [ReturnFlightSearchParams.validate, validate_airport, validate_dates,
        validate_return_dates, hA, hf, ht, hmp, ebind_ok, ebind_error, eisOk_ok, eisOk_error]
  · intro v
    by_cases h : PyDateTime.lt v now <;>
      simp [validate_dates, h, eisOk_ok, eisOk_error]
  · cases hf : PyDateTime.lt p.from_date now <;> cases ht : PyDateTime.lt p.to_date now <;>
      simp [FlightSearchParams.validate, validate_airport, validate_dates,
        hA, hf, ht, hmp, ebind_ok, ebind_error, eisOk_ok, eisOk_error]

/-- Witness for C2's amended claim at a concrete return-parameter
object with past return dates. -/
theorem C2_date_validation_witness :
    (ReturnFlightSearchParams.validate sampleStations sampleNow sampleRetParams).isOk ↔
      (PyDateTime.lt sampleRetParams.from_date sampleNow = false ∧
       PyDateTime.lt sampleRetParams.to_date sampleNow = false) :=
  (C2_date_validation sampleStations sampleNow sampleRetParams (by decide) (by rfl)).1

/-! Retry-loop helper lemmas. -/

theorem attemptsFrom_le (net : Nat → GetOutcome) :
    ∀ n i, attemptsFrom net i n ≤ n := by
  intro n
  induction n using Nat.strong_induction_on with
  | _ n ih =>
    intro i
    match n with
    | 0 => simp [attemptsFrom]
    | 1 => simp [attemptsFrom]
    | m + 2 =>
      rw [attemptsFrom]
      cases h : attemptGet (net i) with
      | ok r => simp
      | error e =>
        simp only []
        have := ih (m + 1) (by omega) (i + 1)
        omega

/-- When the first four attempts all fail and the fifth raises `e`,
the retry loop performs five attempts and re-raises `e`. -/
theorem ryanGet_allfail (net : Nat → GetOutcome) (e : Exn)
    (hfails : ∀ i, i < 4 → (attemptGet (net i)).isOk = false)
    (hlast : attemptGet (net 4) = Except.error e) :
    ryanGet net = Except.error e ∧ ryanGetAttempts net = 5 := by
  obtain ⟨e0, h0⟩ := eisOk_false (hfails 0 (by omega))
  obtain ⟨e1, h1⟩ := eisOk_false (hfails 1 (by omega))
  obtain ⟨e2, h2⟩ := eisOk_false (hfails 2 (by omega))
  obtain ⟨e3, h3⟩ := eisOk_false (hfails 3 (by omega))
  constructor
  · show retryFrom net 0 5 = Except.error e
    rw [retryFrom, h0]
    rw [retryFrom, h1]
    rw [retryFrom, h2]
    rw [retryFrom, h3]
    rw [retryFrom, hlast]
  · show attemptsFrom net 0 5 = 5
    simp [attemptsFrom, h0, h1, h2, h3]

/-- Claim C3: every outbound request is attempted at most five times;
an exception on an attempt triggers the next attempt while a success
stops the loop immediately; when all five attempts fail the fifth
exception is re-raised (also out of the warm-up in the constructor);
the backoff schedule doubles from one retry to the next; and when the
exhausted exception is an HTTP transport/status error, `get_oneways`
swallows it and returns the empty list. -/
theorem C3_retry_policy (net : Nat → GetOutcome) (fromIso : FromIso)
    (netp : List (String × ApiVal) → Nat → GetOutcome) (params : FlightSearchParams)
    (currencies : List String) (currency : String) :
    ryanGetAttempts net ≤ 5
    ∧ (∀ j r, j < 5 → (∀ i, i < j → (attemptGet (net i)).isOk = false) →
        attemptGet (net j) = Except.ok r →
        ryanGet net = Except.ok r ∧ ryanGetAttempts net = j + 1)
    ∧ (∀ e, (∀ i, i < 4 → (attemptGet (net i)).isOk = false) →
        attemptGet (net 4) = Except.error e →
        ryanGet net = Except.error e ∧ ryanGetAttempts net = 5
        ∧ ryanair_init net currencies currency = Except.error e)
    ∧ (∀ n, 1 ≤ n → wait_exponential (n + 1) = 2 * wait_exponential n)
    ∧ (∀ e, (∀ i, i < 4 → (attemptGet (netp params.to_api_params i)).isOk = false) →
        attemptGet (netp params.to_api_params 4) = Except.error e →
        e.isHTTPError = true →
        get_oneways fromIso netp params = Except.ok []) := by
  refine ⟨attemptsFrom_le net 5 0, ?_, ?_, ?_, ?_⟩
  · intro j r hj hfail hok
    interval_cases j
    · constructor
      · show retryFrom net 0 5 = Except.ok r
        rw [retryFrom, hok]
      · show attemptsFrom net 0 5 = 1
        simp [attemptsFrom, hok]
    · obtain ⟨e0, h0⟩ := eisOk_false (hfail 0 (by omega))
      constructor
      · show retryFrom net 0 5 = Except.ok r
        rw [retryFrom, h0, retryFrom, hok]
      · show attemptsFrom net 0 5 = 2
        simp [attemptsFrom, h0, hok]
    · obtain ⟨e0, h0⟩ := eisOk_false (hfail 0 (by omega))
      obtain ⟨e1, h1⟩ := eisOk_false (hfail 1 (by omega))
      constructor
      · show retryFrom net 0 5 = Except.ok r
        rw [retryFrom, h0, retryFrom, h1, retryFrom, hok]
      · show attemptsFrom net 0 5 = 3
        simp [attemptsFrom, h0, h1, hok]
    · obtain ⟨e0, h0⟩ := eisOk_false (hfail 0 (by omega))
      obtain ⟨e1, h1⟩ := eisOk_false (hfail 1 (by omega))
      obtain ⟨e2, h2⟩ := eisOk_false (hfail 2 (by omega))
      constructor
      · show retryFrom net 0 5 = Except.ok r
        rw [retryFrom, h0, retryFrom, h1, retryFrom, h2, retryFrom, hok]
      · show attemptsFrom net 0 5 = 4
        simp [attemptsFrom, h0, h1, h2, hok]
    · obtain ⟨e0, h0⟩ := eisOk_false (hfail 0 (by omega))
      obtain ⟨e1, h1⟩ := eisOk_false (hfail 1 (by omega))
      obtain ⟨e2, h2⟩ := eisOk_false (hfail 2 (by omega))
      obtain ⟨e3, h3⟩ := eisOk_false (hfail 3 (by omega))
      constructor
      · show retryFrom net 0 5 = Except.ok r
        rw [retryFrom, h0, retryFrom, h1, retryFrom, h2, retryFrom, h3, retryFrom, hok]
      · show attemptsFrom net 0 5 = 5
        simp [attemptsFrom, h0, h1, h2, h3, hok]
  · intro e hfails hlast
    obtain ⟨hg, ha⟩ := ryanGet_allfail net e hfails hlast
    refine ⟨hg, ha, ?_⟩
    rw [ryanair_init, hg, ebind_error]
  · intro n hn
    rw [wait_exponential, wait_exponential]
    have h2 : n + 1 - 1 = (n - 1) + 1 := by omega
    rw [h2]
    ring
  · intro e hfails hlast hhttp
    obtain ⟨hg, -⟩ := ryanGet_allfail (netp params.to_api_params) e hfails hlast
    rw [get_oneways, oneways_body, hg, ebind_error]
    simp [hhttp]

/-- Witness for C3: with every attempt failing with a transport error,
the search returns the empty list. -/
theorem C3_retry_policy_witness :
    get_oneways sampleIso sampleNetDown sampleParams = Except.ok [] :=
  (C3_retry_policy (sampleNetDown []) sampleIso sampleNetDown sampleParams []
    ("EUR")).2.2.2.2 Exn.transportError (fun _ _ => rfl) rfl rfl

/-- Claim C7: with all required leg fields present, `__parse_fare`
stores `None` for a missing `previousPrice` (absence is not an error)
and the reported value for a present one; `__parse_return_fare` stores
`0` for a fare-level `previousPrice` that is absent or falsy and the
reported value otherwise. -/
theorem C7_previous_price (fromIso : FromIso) (fare : JVal) (k : String)
    (legfs : List (String × JVal))
    (depA arrA : Airport) (dd ad : PyDateTime) (pv : ℚ)
    (ds1 ds2 cc fk fn : String) (dA aA po : JVal)
    (hleg : fare.sub k = Except.ok (JVal.obj legfs))
    (h1 : legfs.lookup ("departureDate") = some (JVal.str ds1))
    (h2 : fromIso ds1 = Except.ok dd)
    (h3 : legfs.lookup ("arrivalDate") = some (JVal.str ds2))
    (h4 : fromIso ds2 = Except.ok ad)
    (h5 : legfs.lookup ("departureAirport") = some dA)
    (h6 : parse_airport dA = Except.ok depA)
    (h7 : legfs.lookup ("arrivalAirport") = some aA)
    (h8 : parse_airport aA = Except.ok arrA)
    (h9 : legfs.lookup ("price") = some po)
    (h10 : po.sub ("value") = Except.ok (JVal.num pv))
    (h11 : po.sub ("currencyCode") = Except.ok (JVal.str cc))
    (h12 : legfs.lookup ("flightKey") = some (JVal.str fk))
    (h13 : legfs.lookup ("flightNumber") = some (JVal.str fn)) :
    ((legfs.lookup ("previousPrice") = none →
      parse_fare fromIso fare k =
        Except.ok ⟨depA, arrA, dd, ad, pv, cc, fk, fn, none⟩)
    ∧ (∀ r : ℚ, legfs.lookup ("previousPrice") = some (JVal.num r) →
      parse_fare fromIso fare k =
        Except.ok ⟨depA, arrA, dd, ad, pv, cc, fk, fn, some (StrOrFloat.f r)⟩)
    ∧ (∀ s : String, legfs.lookup ("previousPrice") = some (JVal.str s) →
      parse_fare fromIso fare k =
        Except.ok ⟨depA, arrA, dd, ad, pv, cc, fk, fn, some (StrOrFloat.s s)⟩))
    ∧ (∀ (rfs : List (String × JVal)) (outb inb : Flight) (sp : ℚ) (sc : String)
        (sumObj spObj : JVal),
      parse_fare fromIso (JVal.obj rfs) ("outbound") = Except.ok outb →
      parse_fare fromIso (JVal.obj rfs) ("inbound") = Except.ok inb →
      rfs.lookup ("summary") = some sumObj →
      sumObj.sub ("price") = Except.ok spObj →
      spObj.sub ("value") = Except.ok (JVal.num sp) →
      spObj.sub ("currencyCode") = Except.ok (JVal.str sc) →
      ((rfs.lookup ("previousPrice") = none →
        parse_return_fare fromIso (JVal.obj rfs) =
          Except.ok ⟨outb, inb, sp, sc, StrOrFloat.f 0⟩)
      ∧ (∀ v, rfs.lookup ("previousPrice") = some v → v.truthy = false →
        parse_return_fare fromIso (JVal.obj rfs) =
          Except.ok ⟨outb, inb, sp, sc, StrOrFloat.f 0⟩)
      ∧ (∀ r : ℚ, r ≠ 0 → rfs.lookup ("previousPrice") = some (JVal.num r) →
        parse_return_fare fromIso (JVal.obj rfs) =
          Except.ok ⟨outb, inb, sp, sc, StrOrFloat.f r⟩)
      ∧ (∀ s : String, s ≠ "" → rfs.lookup ("previousPrice") = some (JVal.str s) →
        parse_return_fare fromIso (JVal.obj rfs) =
          Except.ok ⟨outb, inb, sp, sc, StrOrFloat.s s⟩))) := by
  refine ⟨⟨?_, ?_, ?_⟩, ?_⟩
  · intro hp
    simp [parse_fare, hleg, sub_obj, getD_obj, fromisoformat, JVal.asFloat, JVal.asStr,
      JVal.asOptStrFloat, h1, h2, h3, h4, h5, h6, h7, h8, h9, h10, h11, h12, h13, hp,
      ebind_ok, ebind_error]
  · intro r hp
    simp [parse_fare, hleg, sub_obj, getD_obj, fromisoformat, JVal.asFloat, JVal.asStr,
      JVal.asOptStrFloat, h1, h2, h3, h4, h5, h6, h7, h8, h9, h10, h11, h12, h13, hp,
      ebind_ok, ebind_error]
  · intro s hp
    simp [parse_fare, hleg, sub_obj, getD_obj, fromisoformat, JVal.asFloat, JVal.asStr,
      JVal.asOptStrFloat, h1, h2, h3, h4, h5, h6, h7, h8, h9, h10, h11, h12, h13, hp,
      ebind_ok, ebind_error]
  · intro rfs outb inb sp sc sumObj spObj ho hi hsum hsp hv hc
    refine ⟨?_, ?_, ?_, ?_⟩
    · intro hp
      simp [parse_return_fare, ho, hi, sub_obj, getD_obj, hsum, hsp, hv, hc, hp,
        pyOr, JVal.truthy, JVal.asFloat, JVal.asStr, JVal.asStrFloat, ebind_ok]
    · intro v hp hvf
      simp [parse_return_fare, ho, hi, sub_obj, getD_obj, hsum, hsp, hv, hc, hp, hvf,
        pyOr, JVal.asFloat, JVal.asStr, JVal.asStrFloat, ebind_ok]
    · intro r hr hp
      simp [parse_return_fare, ho, hi, sub_obj, getD_obj, hsum, hsp, hv, hc, hp, hr,
        pyOr, JVal.truthy, JVal.asFloat, JVal.asStr, JVal.asStrFloat, ebind_ok]
    · intro s hs hp
      simp [parse_return_fare, ho, hi, sub_obj, getD_obj, hsum, hsp, hv, hc, hp, hs,
        pyOr, JVal.truthy, JVal.asFloat, JVal.asStr, JVal.asStrFloat, ebind_ok]

/-- Witness for C7 at the concrete sample fare objects (both legs well
formed; `previousPrice` absent in both the leg and the fare). -/
theorem C7_previous_price_witness :
    parse_fare sampleIso sampleFare ("outbound") = Except.ok sampleFlight
    ∧ parse_return_fare sampleIso sampleRetFare = Except.ok sampleRetFlight := by
  constructor
  · exact (C7_previous_price sampleIso sampleFare ("outbound") sampleLegFields
      sampleAirport sampleAirport sampleDT sampleDT (4999 / 100)
      ("2025-06-01T10:00:00") ("2025-06-01T12:00:00") ("EUR") ("FR123KEY") ("FR123")
      sampleAirportJson sampleAirportJson samplePriceJson
      rfl rfl rfl rfl rfl rfl rfl rfl rfl rfl rfl rfl rfl rfl).1.1 rfl
  · exact ((C7_previous_price sampleIso sampleFare ("outbound") sampleLegFields
      sampleAirport sampleAirport sampleDT sampleDT (4999 / 100)
      ("2025-06-01T10:00:00") ("2025-06-01T12:00:00") ("EUR") ("FR123KEY") ("FR123")
      sampleAirportJson sampleAirportJson samplePriceJson
      rfl rfl rfl rfl rfl rfl rfl rfl rfl rfl rfl rfl rfl rfl).2 sampleRetFareFields
      sampleFlight sampleFlight (8999 / 100) ("EUR")
      (JVal.obj [("price", JVal.obj [("value", JVal.num (8999 / 100)),
        ("currencyCode", JVal.str ("EUR"))])])
      (JVal.obj [("value", JVal.num (8999 / 100)), ("currencyCode", JVal.str ("EUR"))])
      rfl rfl rfl rfl rfl rfl).1 rfl

/-- Claim C8: a successful response whose `fares` array contains an
entry missing a required key makes the parse raise `KeyError`, which
`get_oneways` catches, returning the empty list instead. -/
theorem C8_missing_key_returns_empty (fromIso : FromIso)
    (net : List (String × ApiVal) → Nat → GetOutcome) (params : FlightSearchParams)
    (r : HttpResponse) (j faresVal : JVal) (xs : List JVal) (m : String)
    (h1 : ryanGet (net params.to_api_params) = Except.ok r)
    (h2 : r.is_success = true)
    (h3 : r.body = Except.ok j)
    (h4 : j.sub ("fares") = Except.ok faresVal)
    (h5 : faresVal.pyIter = Except.ok xs)
    (h6 : xs.mapM (fun f => parse_fare fromIso f ("outbound")) =
      Except.error (Exn.keyError m)) :
    get_oneways fromIso net params = Except.ok []
    ∧ oneways_body fromIso (net params.to_api_params) = Except.error (Exn.keyError m) := by
  have h6' : List.mapM.loop (fun f => parse_fare fromIso f ("outbound")) xs [] =
      Except.error (Exn.keyError m) := h6
  have hbody : oneways_body fromIso (net params.to_api_params) =
      Except.error (Exn.keyError m) := by
    rw [oneways_body, h1, ebind_ok, h2]
    simp [HttpResponse.json, h3, h4, h5, h6, h6', ebind_ok, ebind_error]
  refine ⟨?_, hbody⟩
  rw [get_oneways, hbody]
  simp [Exn.isHTTPError, Exn.isKeyError]

/-- Witness for C8: a concrete 200 response whose only fare lacks
`price.value`. -/
theorem C8_missing_key_returns_empty_witness :
    get_oneways sampleIso sampleNetBadFare sampleParams = Except.ok [] :=
  (C8_missing_key_returns_empty sampleIso sampleNetBadFare sampleParams
    sampleRespBadFare (JVal.obj [("fares", JVal.arr [sampleBadFare])])
    (JVal.arr [sampleBadFare]) [sampleBadFare] ("value")
    rfl rfl rfl rfl rfl rfl).1

/-- Counterexample to claim C1 as stated: a 200 response whose body is
not valid JSON makes `r.json()` raise `json.JSONDecodeError` (a
`ValueError`), which is caught by neither `except httpx.HTTPError` nor
`except KeyError`; the exception escapes `get_oneways` instead of being
turned into an empty list. -/
theorem C1_decode_failure_escapes :
    get_oneways sampleIso sampleNetBadJson sampleParams =
      Except.error (Exn.valueError ("Expecting value"))
    ∧ get_oneways sampleIso sampleNetBadJson sampleParams ≠ Except.ok [] := by
  constructor
  · rfl
  · intro h
    rw [show get_oneways sampleIso sampleNetBadJson sampleParams =
      Except.error (Exn.valueError ("Expecting value")) from rfl] at h
    cases h

/-- Claim C1, amended: after parameter construction, `get_oneways`
degrades to an empty list exactly for `httpx.HTTPError` (transport and
status errors) and `KeyError` (missing JSON fields); every other
runtime exception of the search body — in particular a JSON-body
decode failure or a malformed field value, both `ValueError`s —
propagates to the caller. -/
theorem C1_exception_policy (fromIso : FromIso)
    (net : List (String × ApiVal) → Nat → GetOutcome) (params : FlightSearchParams) :
    (∀ v, oneways_body fromIso (net params.to_api_params) = Except.ok v →
        get_oneways fromIso net params = Except.ok v)
    ∧ (∀ e, oneways_body fromIso (net params.to_api_params) = Except.error e →
        ((e.isHTTPError = true ∨ e.isKeyError = true) →
            get_oneways fromIso net params = Except.ok [])
        ∧ (e.isHTTPError = false → e.isKeyError = false →
            get_oneways fromIso net params = Except.error e)) := by
  constructor
  · intro v hv
    rw [get_oneways, hv]
  · intro e he
    constructor
    · intro hcaught
      rw [get_oneways, he]
      rcases hcaught with h | h
      · simp [h]
      · simp [h]
    · intro hh hk
      rw [get_oneways, he]
      simp [hh, hk]

/-- Witness for C1's amended claim: the decode failure of
`C1_decode_failure_escapes` flows through the propagation branch. -/
theorem C1_exception_policy_witness :
    get_oneways sampleIso sampleNetBadJson sampleParams =
      Except.error (Exn.valueError ("Expecting value")) :=
  (((C1_exception_policy sampleIso sampleNetBadJson sampleParams).2
      (Exn.valueError ("Expecting value")) (by rfl)).2) rfl rfl

end Flyan
